import Mathlib

/-!
# Verification of the Steam game tracking engine (`tracker.py`)

Shallow embedding of the `GameTracker` class from `src/tracker.py`.

Modelling decisions, each justified against the source:

* Python `dict`s preserve insertion order and have unique keys; we embed them
  as association lists `List (Int × α)` with `dictGet` (first match),
  `dictSet` (update in place, or append when the key is new — exactly a
  Python `d[k] = v`) and `dictDel` (remove the entry — Python `del d[k]`).
  The source keys both `tracked_games` and `watchers` by `str(game_id)` /
  `str(channel_id)`; `str` is injective on Python ints, so keying by `Int`
  is faithful.
* `datetime.now().isoformat()` is an input: `update_game_data` takes the
  current timestamp as an explicit `now : String` argument.
* `_save_tracking_data` writes the whole registry to the JSON file and
  catches any exception internally (logging it and returning normally).
  We model the tracker plus its file as `TrackerState`
  (`tracked_games` = in-memory dict, `stored` = file content) and pass a
  flag `ok : Bool` saying whether the file write succeeds; either way the
  helper returns without raising, as in the source.
* The `try/except` wrappers in `track_game` / `untrack_game` /
  `get_tracked_games` / `update_game_data` / `get_notification_channels`
  can only fire on malformed registry documents (e.g. a hand-edited JSON
  file whose values are not dicts); on well-typed states — which the Lean
  types enforce — none of the wrapped statements can raise (the one
  raising operation, the file write, catches its own exceptions inside
  `_save_tracking_data`), so the embedding has no exception path.
-/

namespace SteamTracker

/-- `current_data` of a tracked game: `tracker.py` lines 53–58. -/
structure Snapshot where
  price : Option String
  release_date : Option String
  preorder_status : Bool
  last_update : Option String
deriving Repr, DecidableEq

/-- The value stored under `tracked_games[str(game_id)]`: lines 48–59. -/
structure TrackedGame where
  id : Int
  name : String
  watchers : List (Int × List Int)
  last_check : Option String
  current_data : Snapshot
deriving Repr, DecidableEq

/-- A notification dict `{'type': ..., 'message': ...}` built by
`update_game_data`. -/
structure NotificationEvent where
  type : String
  message : String
deriving Repr, DecidableEq

/-- The tracker's in-memory registry together with the persisted file
content (`game_tracking.json`). -/
structure TrackerState where
  tracked_games : List (Int × TrackedGame)
  stored : List (Int × TrackedGame)
deriving Repr, DecidableEq

/-- A summary dict returned by `get_tracked_games`: lines 118–122. -/
structure GameSummary where
  id : Int
  name : String
  current_data : Snapshot
deriving Repr, DecidableEq

/-! ## Python dict primitives over association lists -/

/-- `d.get(k)` / `d[k]` lookup: first entry with the key. -/
def dictGet {α : Type} : List (Int × α) → Int → Option α
  | [], _ => none
  | (k', v) :: t, k => if k' = k then some v else dictGet t k

/-- `d[k] = v`: replace the value in place if the key exists, else append
(Python dicts append new keys at the end of iteration order). -/
def dictSet {α : Type} : List (Int × α) → Int → α → List (Int × α)
  | [], k, v => [(k, v)]
  | (k', v') :: t, k, v => if k' = k then (k, v) :: t else (k', v') :: dictSet t k v

/-- `del d[k]`: drop the entry with the key. -/
def dictDel {α : Type} : List (Int × α) → Int → List (Int × α)
  | [], _ => []
  | (k', v') :: t, k => if k' = k then t else (k', v') :: dictDel t k

/-- `list.remove(x)`: remove the first occurrence. -/
def removeFirst : List Int → Int → List Int
  | [], _ => []
  | y :: t, x => if y = x then t else y :: removeFirst t x

/-- Python dicts cannot hold a key twice; states produced by the tracker
satisfy this. -/
def dictNodup {α : Type} (l : List (Int × α)) : Prop :=
  (l.map Prod.fst).Nodup

/-! ## The tracker operations -/

/-- `GameTracker._save_tracking_data` (lines 30–41): dump the registry to
the file; an `Exception` during the write is caught and logged, so the
caller never sees a failure and the in-memory registry is untouched.
`ok` says whether the file write raised. -/
def save_tracking_data (ok : Bool) (s : TrackerState) : TrackerState :=
  if ok then { s with stored := s.tracked_games } else s

/-- The fresh entity document created by `track_game` (lines 48–59). -/
def freshGame (game_id : Int) (game_name : String) : TrackedGame :=
  { id := game_id
    name := game_name
    watchers := []
    last_check := none
    current_data :=
      { price := none
        release_date := none
        preorder_status := false
        last_update := none } }

/-- Lines 47–59 of `track_game`: the entity the rest of the method works
on — the existing document, or the fresh one just inserted. -/
def trackBase (s : TrackerState) (game_id : Int) (game_name : String) : TrackedGame :=
  match dictGet s.tracked_games game_id with
  | some g => g
  | none => freshGame game_id game_name

/-- Lines 62–66 of `track_game`: the channel's user list after ensuring the
channel key exists (`[]` when new) and appending the user when absent. -/
def trackUsers (g : TrackedGame) (channel_id user_id : Int) : List Int :=
  let ws := (dictGet g.watchers channel_id).getD []
  if user_id ∈ ws then ws else ws ++ [user_id]

/-- The entity document as it stands after the mutations of `track_game`
(lines 47–66): watcher list of `channel_id` updated, all else kept. -/
def trackResult (s : TrackerState) (game_id : Int) (game_name : String)
    (channel_id user_id : Int) : TrackedGame :=
  let g := trackBase s game_id game_name
  { g with watchers := dictSet g.watchers channel_id (trackUsers g channel_id user_id) }

/-- `GameTracker.track_game` (lines 43–77): create the entity if new, add
the channel key if new, append the user if not already watching, then save.
Returns `True`; the `except` branch returning `False` is unreachable on
well-typed states (see the module comment). -/
def track_game (ok : Bool) (s : TrackerState) (game_id : Int) (game_name : String)
    (channel_id user_id : Int) : Bool × TrackerState :=
  (true,
   save_tracking_data ok
     { s with
       tracked_games :=
         dictSet s.tracked_games game_id
           (trackResult s game_id game_name channel_id user_id) })

/-- Lines 87–91 of `untrack_game`: the entity's watchers dict after the
user list of `channel_id` became `us'` — the channel entry is dropped when
that list is empty. -/
def untrackWatchers (g : TrackedGame) (channel_id : Int) (us' : List Int) :
    List (Int × List Int) :=
  if us' = [] then dictDel g.watchers channel_id
  else dictSet g.watchers channel_id us'

/-- Lines 92–93 of `untrack_game`: the registry after the entity's watchers
dict became `w'` — the entity is dropped when that dict is empty. -/
def untrackRegistry (s : TrackerState) (game_id : Int) (g : TrackedGame)
    (w' : List (Int × List Int)) : List (Int × TrackedGame) :=
  if w' = [] then dictDel s.tracked_games game_id
  else dictSet s.tracked_games game_id { g with watchers := w' }

/-- `GameTracker.untrack_game` (lines 79–105): remove the user; drop the
channel entry when its list becomes empty; drop the entity when its
watchers dict becomes empty; save and return `True`. Any missing
entity/channel/user returns `False` with nothing mutated. -/
def untrack_game (ok : Bool) (s : TrackerState) (game_id channel_id user_id : Int) :
    Bool × TrackerState :=
  match dictGet s.tracked_games game_id with
  | none => (false, s)
  | some g =>
    match dictGet g.watchers channel_id with
    | none => (false, s)
    | some us =>
      if user_id ∈ us then
        (true,
         save_tracking_data ok
           { s with
             tracked_games :=
               untrackRegistry s game_id g
                 (untrackWatchers g channel_id (removeFirst us user_id)) })
      else (false, s)

/-- `GameTracker.get_tracked_games` (lines 107–128): all entities, filtered
by channel when given, and additionally by user only when a channel was
given (the user test lives inside the `channel_id is not None` branch). -/
def get_tracked_games (s : TrackerState) (channel_id user_id : Option Int) :
    List GameSummary :=
  s.tracked_games.filterMap fun e =>
    match channel_id with
    | none => some ⟨e.2.id, e.2.name, e.2.current_data⟩
    | some c =>
      match dictGet e.2.watchers c with
      | none => none
      | some us =>
        match user_id with
        | none => some ⟨e.2.id, e.2.name, e.2.current_data⟩
        | some u => if u ∈ us then some ⟨e.2.id, e.2.name, e.2.current_data⟩ else none

/-- Message of a price event (lines 148–150). -/
def priceMsg (name old p : String) : String :=
  "💰 Price Update: " ++ name ++ "\nPrevious: " ++ old ++ "\nNew: " ++ p

/-- Message of a release-date event (lines 158–160). -/
def releaseMsg (name old r : String) : String :=
  "📅 Release Date Changed: " ++ name ++ "\nPrevious: " ++ old ++ "\nNew: " ++ r

/-- Message of a preorder event (lines 167–168). -/
def preorderMsg (name : String) (b : Bool) : String :=
  "🎮 Pre-order Status Update: " ++ name ++ "\nNow "
    ++ (if b then "available" else "unavailable") ++ " for pre-order!"

/-- Lines 144–152: the `price` check of `update_game_data`. An observed
price differing from the stored one is written; an event fires only when a
previous price was stored. -/
def stepPrice (name : String) (cur : Snapshot) (price : Option String) :
    List NotificationEvent × Snapshot :=
  match price with
  | none => ([], cur)
  | some p =>
    if some p = cur.price then ([], cur)
    else
      ((match cur.price with
        | some old => [⟨"price", priceMsg name old p⟩]
        | none => []),
       { cur with price := some p })

/-- Lines 154–162: the `release_date` check, same shape as `stepPrice`. -/
def stepRelease (name : String) (cur : Snapshot) (release_date : Option String) :
    List NotificationEvent × Snapshot :=
  match release_date with
  | none => ([], cur)
  | some r =>
    if some r = cur.release_date then ([], cur)
    else
      ((match cur.release_date with
        | some old => [⟨"release_date", releaseMsg name old r⟩]
        | none => []),
       { cur with release_date := some r })

/-- Lines 164–170: the `preorder_status` check. The stored field is a plain
boolean (default `False`), so any differing observation — including the
very first `True` — fires an event. -/
def stepPreorder (name : String) (cur : Snapshot) (preorder_status : Option Bool) :
    List NotificationEvent × Snapshot :=
  match preorder_status with
  | none => ([], cur)
  | some b =>
    if b = cur.preorder_status then ([], cur)
    else ([⟨"preorder", preorderMsg name b⟩], { cur with preorder_status := b })

/-- The notifications produced by one `update_game_data` call on entity
`g` (lines 144–170), in the source's fixed check order: price, then
release_date, then preorder. -/
def updateEvents (g : TrackedGame) (price release_date : Option String)
    (preorder_status : Option Bool) : List NotificationEvent :=
  let r1 := stepPrice g.name g.current_data price
  let r2 := stepRelease g.name r1.2 release_date
  let r3 := stepPreorder g.name r2.2 preorder_status
  r1.1 ++ r2.1 ++ r3.1

/-- The entity document after one `update_game_data` call (lines 144–175):
the three field checks applied in order to `current_data`, `last_update`
overwritten when provided, `last_check` stamped with the current time. -/
def updateResult (now : String) (g : TrackedGame) (price release_date : Option String)
    (preorder_status : Option Bool) (last_update : Option String) : TrackedGame :=
  let r1 := stepPrice g.name g.current_data price
  let r2 := stepRelease g.name r1.2 release_date
  let r3 := stepPreorder g.name r2.2 preorder_status
  let c4 : Snapshot :=
    match last_update with
    | none => r3.2
    | some lu => { r3.2 with last_update := some lu }
  { g with current_data := c4, last_check := some now }

/-- `GameTracker.update_game_data` (lines 130–184): unknown entity returns
`[]` untouched; otherwise run the three field checks in source order
(price, release_date, preorder), overwrite `last_update` when provided,
stamp `last_check` with the current time, save, and return the events. -/
def update_game_data (ok : Bool) (now : String) (s : TrackerState) (game_id : Int)
    (price release_date : Option String) (preorder_status : Option Bool)
    (last_update : Option String) : List NotificationEvent × TrackerState :=
  match dictGet s.tracked_games game_id with
  | none => ([], s)
  | some g =>
    (updateEvents g price release_date preorder_status,
     save_tracking_data ok
       { s with
         tracked_games :=
           dictSet s.tracked_games game_id
             (updateResult now g price release_date preorder_status last_update) })

/-- `GameTracker.get_notification_channels` (lines 186–204): the watcher
pairs of the entity, empty when unknown (`int(str(c)) = c`, so this is the
`watchers` list itself in the `Int`-keyed model). -/
def get_notification_channels (s : TrackerState) (game_id : Int) :
    List (Int × List Int) :=
  match dictGet s.tracked_games game_id with
  | none => []
  | some g => g.watchers.map fun c => (c.1, c.2)

/-! ## Observers used to state the claims -/

/-- A tracker that has just started with no data file: `tracked_games = {}`. -/
def emptyState : TrackerState := { tracked_games := [], stored := [] }

/-- The stored price of an entity (`none` when the entity is unknown). -/
def priceOf (s : TrackerState) (game_id : Int) : Option String :=
  match dictGet s.tracked_games game_id with
  | none => none
  | some g => g.current_data.price

/-- The stored release date of an entity (`none` when unknown). -/
def releaseDateOf (s : TrackerState) (game_id : Int) : Option String :=
  match dictGet s.tracked_games game_id with
  | none => none
  | some g => g.current_data.release_date

/-- The stored preorder flag of an entity (`none` when unknown). -/
def preorderOf (s : TrackerState) (game_id : Int) : Option Bool :=
  match dictGet s.tracked_games game_id with
  | none => none
  | some g => some g.current_data.preorder_status

/-- The user list registered for a channel of an entity (`[]` when the
entity or the channel is unknown). -/
def watchersOf (s : TrackerState) (game_id channel_id : Int) : List Int :=
  match dictGet s.tracked_games game_id with
  | none => []
  | some g => (dictGet g.watchers channel_id).getD []

/-- Whether `(channel_id, user_id)` is currently a watcher of the entity —
the condition under which `untrack_game` reaches its mutation branch. -/
def watcherPresent (s : TrackerState) (game_id channel_id user_id : Int) : Bool :=
  match dictGet s.tracked_games game_id with
  | none => false
  | some g =>
    match dictGet g.watchers channel_id with
    | none => false
    | some us => decide (user_id ∈ us)

/-- The inductive registry invariant: every stored entity has a nonempty
watchers dict all of whose channel entries hold a nonempty user list. It
implies the spec's reading — an entity exists in the store iff it has at
least one channel with at least one user — and is exactly what the
cascading cleanup of `untrack_game` maintains. -/
def RegInv (tg : List (Int × TrackedGame)) : Prop :=
  ∀ e ∈ tg, e.2.watchers ≠ [] ∧ ∀ c ∈ e.2.watchers, c.2 ≠ []

/-- The spec's concrete scenario state: entity 730 "CS2" freshly tracked
by user 9 in channel 1 (all snapshot fields still absent/false). -/
def trackedCS2 : TrackerState := (track_game true emptyState 730 "CS2" 1 9).2

/-- A state whose entity 730 already has a stored price and release date —
used to exercise the simultaneous-change path of `update_game_data`. -/
def richState : TrackerState :=
  { tracked_games :=
      [(730,
        { id := 730
          name := "CS2"
          watchers := [(1, [9])]
          last_check := none
          current_data :=
            { price := some "$9.99"
              release_date := some "2025-01-01"
              preorder_status := false
              last_update := none } })]
    stored := [] }

/-- A state whose entity 730 has two watchers in channel 1 — used to
exercise the removal path of `untrack_game`. -/
def richState2 : TrackerState :=
  { tracked_games :=
      [(730,
        { id := 730
          name := "CS2"
          watchers := [(1, [9, 10])]
          last_check := none
          current_data :=
            { price := none
              release_date := none
              preorder_status := false
              last_update := none } })]
    stored := [] }

/-! ## Dictionary lemmas -/

theorem dictGet_dictSet_self {α : Type} (l : List (Int × α)) (k : Int) (v : α) :
    dictGet (dictSet l k v) k = some v := by
  induction l with
  | nil => simp [dictGet, dictSet]
  | cons e t ih =>
    by_cases h : e.1 = k <;> simp [dictGet, dictSet, h, ih]

theorem dictGet_dictSet_ne {α : Type} (l : List (Int × α)) (k k' : Int) (v : α)
    (h : k' ≠ k) : dictGet (dictSet l k v) k' = dictGet l k' := by
  induction l with
  | nil => simp [dictGet, dictSet, h, Ne.symm h]
  | cons e t ih =>
    by_cases hk : e.1 = k
    · simp [dictGet, dictSet, hk, h, Ne.symm h]
    · by_cases hk' : e.1 = k' <;> simp [dictGet, dictSet, hk, hk', h, ih]

theorem dictSet_dictSet {α : Type} (l : List (Int × α)) (k : Int) (v w : α) :
    dictSet (dictSet l k v) k w = dictSet l k w := by
  induction l with
  | nil => simp [dictSet]
  | cons e t ih =>
    by_cases h : e.1 = k <;> simp [dictSet, h, ih]

theorem mem_dictSet {α : Type} {l : List (Int × α)} {k : Int} {v : α} {e : Int × α}
    (h : e ∈ dictSet l k v) : e ∈ l ∨ e = (k, v) := by
  induction l with
  | nil => simp [dictSet] at h; simp [h]
  | cons e' t ih =>
    by_cases hk : e'.1 = k
    · simp [dictSet, hk] at h
      rcases h with h | h
      · right; simp [h]
      · left; simp [h]
    · simp [dictSet, hk] at h
      rcases h with h | h
      · left; simp [h]
      · rcases ih h with h' | h'
        · left; simp [h']
        · right; exact h'

theorem mem_dictDel {α : Type} {l : List (Int × α)} {k : Int} {e : Int × α}
    (h : e ∈ dictDel l k) : e ∈ l := by
  induction l with
  | nil => simp [dictDel] at h
  | cons e' t ih =>
    by_cases hk : e'.1 = k
    · simp [dictDel, hk] at h; simp [h]
    · simp [dictDel, hk] at h
      rcases h with h | h
      · simp [h]
      · simp [ih h]

theorem dictGet_mem {α : Type} {l : List (Int × α)} {k : Int} {v : α}
    (h : dictGet l k = some v) : (k, v) ∈ l := by
  induction l with
  | nil => simp [dictGet] at h
  | cons e t ih =>
    obtain ⟨k', v'⟩ := e
    by_cases hk : k' = k
    · simp [dictGet, hk] at h
      simp [hk, h]
    · simp [dictGet, hk] at h
      exact List.mem_cons_of_mem _ (ih h)

theorem dictGet_dictDel_self {α : Type} {l : List (Int × α)} (k : Int)
    (h : dictNodup l) : dictGet (dictDel l k) k = none := by
  induction l with
  | nil => simp [dictGet, dictDel]
  | cons e t ih =>
    have ht : dictNodup t := by
      simpa [dictNodup] using (List.nodup_cons.mp h).2
    by_cases hk : e.1 = k
    · have : ∀ v, dictGet t k ≠ some v := by
        intro v hv
        have hmem := dictGet_mem hv
        have : k ∈ t.map Prod.fst := List.mem_map_of_mem _ hmem
        have hnin := (List.nodup_cons.mp h).1
        exact hnin (hk ▸ this)
      simp [dictDel, hk]
      cases hget : dictGet t k with
      | none => rfl
      | some v => exact absurd hget (this v)
    · simp [dictDel, dictGet, hk, ih ht]

theorem dictSet_ne_nil {α : Type} (l : List (Int × α)) (k : Int) (v : α) :
    dictSet l k v ≠ [] := by
  cases l with
  | nil => simp [dictSet]
  | cons e t => by_cases h : e.1 = k <;> simp [dictSet, h]

theorem save_tracked (ok : Bool) (s : TrackerState) :
    (save_tracking_data ok s).tracked_games = s.tracked_games := by
  cases ok <;> rfl

theorem track_game_eq (ok : Bool) (s : TrackerState) (game_id : Int)
    (game_name : String) (channel_id user_id : Int) :
    track_game ok s game_id game_name channel_id user_id
      = (true,
         save_tracking_data ok
           { s with
             tracked_games :=
               dictSet s.tracked_games game_id
                 (trackResult s game_id game_name channel_id user_id) }) := rfl

theorem mem_trackUsers (g : TrackedGame) (channel_id user_id : Int) :
    user_id ∈ trackUsers g channel_id user_id := by
  unfold trackUsers
  by_cases h : user_id ∈ (dictGet g.watchers channel_id).getD [] <;> simp [h]

theorem tracked_after (ok : Bool) (s : TrackerState) (game_id : Int)
    (game_name : String) (channel_id user_id : Int) :
    (track_game ok s game_id game_name channel_id user_id).2.tracked_games
      = dictSet s.tracked_games game_id
          (trackResult s game_id game_name channel_id user_id) := by
  cases ok <;> rfl

theorem trackBase_after (ok : Bool) (s : TrackerState) (game_id : Int)
    (game_name : String) (channel_id user_id : Int) :
    trackBase (track_game ok s game_id game_name channel_id user_id).2 game_id game_name
      = trackResult s game_id game_name channel_id user_id := by
  unfold trackBase
  rw [tracked_after, dictGet_dictSet_self]

theorem trackUsers_trackResult (s : TrackerState) (game_id : Int) (game_name : String)
    (channel_id user_id : Int) :
    trackUsers (trackResult s game_id game_name channel_id user_id) channel_id user_id
      = trackUsers (trackBase s game_id game_name) channel_id user_id := by
  have hw : dictGet (trackResult s game_id game_name channel_id user_id).watchers channel_id
      = some (trackUsers (trackBase s game_id game_name) channel_id user_id) :=
    dictGet_dictSet_self _ _ _
  conv_lhs => unfold trackUsers
  rw [hw]
  simp [mem_trackUsers]

theorem trackResult_idem (ok : Bool) (s : TrackerState) (game_id : Int)
    (game_name : String) (channel_id user_id : Int) :
    trackResult (track_game ok s game_id game_name channel_id user_id).2
        game_id game_name channel_id user_id
      = trackResult s game_id game_name channel_id user_id := by
  conv_lhs => unfold trackResult
  rw [trackBase_after]
  simp only [trackUsers_trackResult]
  have hw : (trackResult s game_id game_name channel_id user_id).watchers
      = dictSet (trackBase s game_id game_name).watchers channel_id
          (trackUsers (trackBase s game_id game_name) channel_id user_id) := rfl
  rw [hw, dictSet_dictSet]
  rfl

/-! ## C1: idempotence of `track_game` -/

/-- C1: calling `track_game` twice with identical arguments yields the same
state as calling it once — the second call returns `true` and changes
nothing: no duplicate `(channel_id, user_id)` watcher entry is inserted and
the entity's watcher set, name, and snapshot are untouched. -/
theorem track_game_idempotent (ok : Bool) (s : TrackerState) (game_id : Int)
    (game_name : String) (channel_id user_id : Int) :
    track_game ok (track_game ok s game_id game_name channel_id user_id).2
        game_id game_name channel_id user_id
      = (true, (track_game ok s game_id game_name channel_id user_id).2) := by
  have h2 : dictSet (track_game ok s game_id game_name channel_id user_id).2.tracked_games
      game_id
      (trackResult (track_game ok s game_id game_name channel_id user_id).2
        game_id game_name channel_id user_id)
      = (track_game ok s game_id game_name channel_id user_id).2.tracked_games := by
    rw [trackResult_idem, tracked_after, dictSet_dictSet]
  rw [track_game_eq ok (track_game ok s game_id game_name channel_id user_id).2
        game_id game_name channel_id user_id, h2]
  cases ok <;> rfl

/-! ## C2: behaviour of `track_game` under a store-write failure -/

/-- C2 counterexample: the claim says a failing store write makes `track`
return `false` and leave the in-memory registry unchanged. In the source a
write failure is caught inside `_save_tracking_data` itself, so on a
failing write (`ok = false`) `track_game` still returns `True` and the
watcher it added is still in the in-memory registry. -/
theorem track_game_save_failure_counterexample :
    (track_game false emptyState 1 "g" 2 3).1 = true
      ∧ (track_game false emptyState 1 "g" 2 3).2.tracked_games
          ≠ emptyState.tracked_games := by
  exact ⟨rfl, by decide⟩

/-- C2 (amended): `track_game` always returns `true` — a store-write
failure is caught and logged inside the save helper and never reported to
the caller; the in-memory mutation is applied regardless of the write
outcome, and on a failed write only the persisted file is left unchanged
(last-known-good). -/
theorem track_game_save_failure_semantics (s : TrackerState) (game_id : Int)
    (game_name : String) (channel_id user_id : Int) :
    (∀ ok, (track_game ok s game_id game_name channel_id user_id).1 = true)
      ∧ (track_game false s game_id game_name channel_id user_id).2.stored = s.stored
      ∧ (track_game false s game_id game_name channel_id user_id).2.tracked_games
          = (track_game true s game_id game_name channel_id user_id).2.tracked_games := by
  refine ⟨fun _ => rfl, rfl, ?_⟩
  rw [tracked_after, tracked_after]

/-! ## C8: unknown entity is a defined empty result -/

/-- C8: when the entity is not tracked, `update_game_data` returns an empty
event list and the whole state — registry and persisted file — is
untouched (the save is never reached); `get_notification_channels`
likewise returns the empty list. -/
theorem update_unknown_entity (ok : Bool) (now : String) (s : TrackerState)
    (game_id : Int) (price release_date : Option String)
    (preorder_status : Option Bool) (last_update : Option String)
    (h : dictGet s.tracked_games game_id = none) :
    update_game_data ok now s game_id price release_date preorder_status last_update
        = ([], s)
      ∧ get_notification_channels s game_id = [] := by
  constructor
  · unfold update_game_data
    rw [h]
  · unfold get_notification_channels
    rw [h]

/-- Witness for C8 at a concrete state: entity 42 is not tracked in the
empty registry. -/
theorem update_unknown_entity_witness :
    update_game_data true "t" emptyState 42 (some "$1") none (some true) none
        = ([], emptyState)
      ∧ get_notification_channels emptyState 42 = [] :=
  update_unknown_entity true "t" emptyState 42 (some "$1") none (some true) none rfl

/-! ## C9: the user filter of `get_tracked_games` needs a channel filter -/

/-- C9: `get_tracked_games` tests the user only inside the
`channel_id is not None` branch, so with no channel filter the user filter
is silently ignored: filtering by user alone returns every tracked entity,
exactly as the unfiltered call does. -/
theorem get_tracked_games_user_filter_ignored (s : TrackerState) (user_id : Int) :
    get_tracked_games s none (some user_id) = get_tracked_games s none none := rfl

/-! ## Helper lemmas for `untrack_game` -/

theorem trackUsers_ne_nil (g : TrackedGame) (channel_id user_id : Int) :
    trackUsers g channel_id user_id ≠ [] :=
  List.ne_nil_of_mem (mem_trackUsers g channel_id user_id)

theorem not_mem_removeFirst {l : List Int} (h : l.Nodup) (x : Int) :
    x ∉ removeFirst l x := by
  induction l with
  | nil => simp [removeFirst]
  | cons y t ih =>
    rcases List.nodup_cons.mp h with ⟨hy, ht⟩
    by_cases hx : y = x
    · rw [removeFirst, if_pos hx]
      exact fun hmem => hy (hx ▸ hmem)
    · rw [removeFirst, if_neg hx]
      intro hmem
      rcases List.mem_cons.mp hmem with h1 | h1
      · exact hx h1.symm
      · exact ih ht h1

theorem untrack_game_of_mem (ok : Bool) (s : TrackerState)
    (game_id channel_id user_id : Int) (g : TrackedGame) (us : List Int)
    (hg : dictGet s.tracked_games game_id = some g)
    (hw : dictGet g.watchers channel_id = some us)
    (hmem : user_id ∈ us) :
    untrack_game ok s game_id channel_id user_id
      = (true,
         save_tracking_data ok
           { s with
             tracked_games :=
               untrackRegistry s game_id g
                 (untrackWatchers g channel_id (removeFirst us user_id)) }) := by
  simp [untrack_game, hg, hw, hmem]

theorem untrack_game_not_mem (ok : Bool) (s : TrackerState)
    (game_id channel_id user_id : Int)
    (h : watcherPresent s game_id channel_id user_id = false) :
    untrack_game ok s game_id channel_id user_id = (false, s) := by
  cases hg : dictGet s.tracked_games game_id with
  | none => simp [untrack_game, hg]
  | some g =>
    cases hw : dictGet g.watchers channel_id with
    | none => simp [untrack_game, hg, hw]
    | some us =>
      have hmem : user_id ∉ us := by
        simp [watcherPresent, hg, hw] at h
        exact h
      simp [untrack_game, hg, hw, hmem]

theorem watchersOf_after_untrack (ok : Bool) (s : TrackerState)
    (game_id channel_id : Int) (g : TrackedGame) (us' : List Int)
    (htg : dictNodup s.tracked_games) (hwnd : dictNodup g.watchers) :
    watchersOf
      (save_tracking_data ok
        { s with
          tracked_games :=
            untrackRegistry s game_id g (untrackWatchers g channel_id us') })
      game_id channel_id = us' := by
  unfold watchersOf untrackRegistry untrackWatchers
  rw [save_tracked]
  by_cases h1 : us' = []
  · rw [if_pos h1]
    by_cases h2 : dictDel g.watchers channel_id = []
    · simp [h2, dictGet_dictDel_self channel_id, htg, h1,
            dictGet_dictDel_self game_id htg]
    · simp [h2, dictGet_dictSet_self, dictGet_dictDel_self channel_id hwnd, h1]
  · rw [if_neg h1, if_neg (dictSet_ne_nil _ _ _)]
    simp [dictGet_dictSet_self]

/-! ## C4: functional correctness of `untrack_game` -/

/-- C4: `untrack_game` returns `false` and leaves the state unchanged when
the entity, channel, or user is absent; when the `(channel_id, user_id)`
pair is present it returns `true` and the channel's stored user list
becomes the old list with the user removed (so under set semantics —
duplicate-free lists — the user is no longer a watcher). -/
theorem untrack_game_correct (ok : Bool) (s : TrackerState)
    (game_id channel_id user_id : Int) :
    (watcherPresent s game_id channel_id user_id = false →
        untrack_game ok s game_id channel_id user_id = (false, s))
      ∧ (watcherPresent s game_id channel_id user_id = true →
          (untrack_game ok s game_id channel_id user_id).1 = true
            ∧ ∀ g us, dictGet s.tracked_games game_id = some g →
                dictGet g.watchers channel_id = some us →
                dictNodup s.tracked_games → dictNodup g.watchers →
                watchersOf (untrack_game ok s game_id channel_id user_id).2
                    game_id channel_id = removeFirst us user_id
                  ∧ (us.Nodup →
                      user_id ∉ watchersOf (untrack_game ok s game_id channel_id user_id).2
                          game_id channel_id)) := by
  refine ⟨untrack_game_not_mem ok s game_id channel_id user_id, fun hpres => ?_⟩
  have hex : ∃ g us, dictGet s.tracked_games game_id = some g
      ∧ dictGet g.watchers channel_id = some us ∧ user_id ∈ us := by
    cases hg : dictGet s.tracked_games game_id with
    | none => simp [watcherPresent, hg] at hpres
    | some g =>
      cases hw : dictGet g.watchers channel_id with
      | none => simp [watcherPresent, hg, hw] at hpres
      | some us =>
        simp [watcherPresent, hg, hw] at hpres
        exact ⟨g, us, rfl, hw, hpres⟩
  obtain ⟨g, us, hg, hw, hmem⟩ := hex
  rw [untrack_game_of_mem ok s game_id channel_id user_id g us hg hw hmem]
  refine ⟨rfl, fun g' us' hg' hw' htg hwnd => ?_⟩
  rw [hg] at hg'
  injection hg' with hg'
  subst hg'
  rw [hw] at hw'
  injection hw' with hw'
  subst hw'
  have hchar := watchersOf_after_untrack ok s game_id channel_id g
    (removeFirst us user_id) htg hwnd
  refine ⟨hchar, fun hnd => ?_⟩
  rw [hchar]
  exact not_mem_removeFirst hnd user_id

/-- Witness for C4: in a state where channel 1 of entity 730 has watchers
9 and 10, untracking user 9 succeeds and leaves watcher list `[10]`;
untracking in the empty registry fails and changes nothing. -/
theorem untrack_game_correct_witness :
    untrack_game true emptyState 730 1 9 = (false, emptyState)
      ∧ (untrack_game true richState2 730 1 9).1 = true
      ∧ watchersOf (untrack_game true richState2 730 1 9).2 730 1 = [10]
      ∧ 9 ∉ watchersOf (untrack_game true richState2 730 1 9).2 730 1 := by
  have h1 := (untrack_game_correct true emptyState 730 1 9).1 rfl
  have h2 := (untrack_game_correct true richState2 730 1 9).2 rfl
  have h3 := h2.2 ⟨730, "CS2", [(1, [9, 10])], none, ⟨none, none, false, none⟩⟩
    [9, 10] (by decide) (by decide)
    (by unfold dictNodup; decide) (by unfold dictNodup; decide)
  exact ⟨h1, h2.1, h3.1, h3.2 (by decide)⟩

/-! ## Helper lemmas for the registry invariant -/

theorem trackBase_of_some {s : TrackerState} {game_id : Int} {g : TrackedGame}
    (game_name : String) (h : dictGet s.tracked_games game_id = some g) :
    trackBase s game_id game_name = g := by
  unfold trackBase
  rw [h]

theorem trackBase_of_none {s : TrackerState} {game_id : Int} (game_name : String)
    (h : dictGet s.tracked_games game_id = none) :
    trackBase s game_id game_name = freshGame game_id game_name := by
  unfold trackBase
  rw [h]

theorem RegInv_track (ok : Bool) (s : TrackerState) (game_id : Int)
    (game_name : String) (channel_id user_id : Int) (hInv : RegInv s.tracked_games) :
    RegInv (track_game ok s game_id game_name channel_id user_id).2.tracked_games := by
  rw [tracked_after]
  intro e he
  rcases mem_dictSet he with h | h
  · exact hInv e h
  · subst h
    refine ⟨?_, ?_⟩
    · show dictSet (trackBase s game_id game_name).watchers channel_id
        (trackUsers (trackBase s game_id game_name) channel_id user_id) ≠ []
      exact dictSet_ne_nil _ _ _
    · intro c hc
      have hc2 : c ∈ dictSet (trackBase s game_id game_name).watchers channel_id
          (trackUsers (trackBase s game_id game_name) channel_id user_id) := hc
      rcases mem_dictSet hc2 with h1 | h1
      · cases hb : dictGet s.tracked_games game_id with
        | none =>
          rw [trackBase_of_none game_name hb] at h1
          simp [freshGame] at h1
        | some g0 =>
          rw [trackBase_of_some game_name hb] at h1
          exact (hInv (game_id, g0) (dictGet_mem hb)).2 c h1
      · rw [h1]
        exact trackUsers_ne_nil _ _ _

theorem RegInv_untrack (ok : Bool) (s : TrackerState) (game_id channel_id user_id : Int)
    (hInv : RegInv s.tracked_games) :
    RegInv (untrack_game ok s game_id channel_id user_id).2.tracked_games := by
  cases hg : dictGet s.tracked_games game_id with
  | none =>
    rw [untrack_game_not_mem ok s game_id channel_id user_id
      (by simp [watcherPresent, hg])]
    exact hInv
  | some g =>
    cases hw : dictGet g.watchers channel_id with
    | none =>
      rw [untrack_game_not_mem ok s game_id channel_id user_id
        (by simp [watcherPresent, hg, hw])]
      exact hInv
    | some us =>
      by_cases hmem : user_id ∈ us
      · intro e he
        have he2 : e ∈ untrackRegistry s game_id g
            (untrackWatchers g channel_id (removeFirst us user_id)) := by
          have heq : (untrack_game ok s game_id channel_id user_id).2.tracked_games
              = untrackRegistry s game_id g
                  (untrackWatchers g channel_id (removeFirst us user_id)) := by
            rw [untrack_game_of_mem ok s game_id channel_id user_id g us hg hw hmem]
            exact save_tracked ok _
          rw [heq] at he
          exact he
        unfold untrackRegistry at he2
        by_cases h2 : untrackWatchers g channel_id (removeFirst us user_id) = []
        · rw [if_pos h2] at he2
          exact hInv e (mem_dictDel he2)
        · rw [if_neg h2] at he2
          rcases mem_dictSet he2 with h3 | h3
          · exact hInv e h3
          · subst h3
            refine ⟨h2, ?_⟩
            intro c hc
            have hc2 : c ∈ untrackWatchers g channel_id (removeFirst us user_id) := hc
            unfold untrackWatchers at hc2
            by_cases h4 : removeFirst us user_id = []
            · rw [if_pos h4] at hc2
              exact (hInv (game_id, g) (dictGet_mem hg)).2 c (mem_dictDel hc2)
            · rw [if_neg h4] at hc2
              rcases mem_dictSet hc2 with h5 | h5
              · exact (hInv (game_id, g) (dictGet_mem hg)).2 c h5
              · rw [h5]
                exact h4
      · rw [untrack_game_not_mem ok s game_id channel_id user_id
          (by simp [watcherPresent, hg, hw, hmem])]
        exact hInv

theorem RegInv_update (ok : Bool) (now : String) (s : TrackerState) (game_id : Int)
    (price release_date : Option String) (preorder_status : Option Bool)
    (last_update : Option String) (hInv : RegInv s.tracked_games) :
    RegInv (update_game_data ok now s game_id price release_date preorder_status
        last_update).2.tracked_games := by
  cases hg : dictGet s.tracked_games game_id with
  | none =>
    have he : update_game_data ok now s game_id price release_date preorder_status
        last_update = ([], s) := by
      unfold update_game_data
      rw [hg]
    rw [he]
    exact hInv
  | some g =>
    have ht : (update_game_data ok now s game_id price release_date preorder_status
        last_update).2.tracked_games
        = dictSet s.tracked_games game_id
            (updateResult now g price release_date preorder_status last_update) := by
      unfold update_game_data
      rw [hg]
      exact save_tracked ok _
    rw [ht]
    intro e he
    rcases mem_dictSet he with h | h
    · exact hInv e h
    · subst h
      have hwr : (updateResult now g price release_date preorder_status
          last_update).watchers = g.watchers := rfl
      refine ⟨?_, ?_⟩
      · show (updateResult now g price release_date preorder_status
          last_update).watchers ≠ []
        rw [hwr]
        exact (hInv (game_id, g) (dictGet_mem hg)).1
      · intro c hc
        have hc2 : c ∈ g.watchers := by
          have hcw : c ∈ (updateResult now g price release_date preorder_status
              last_update).watchers := hc
          rwa [hwr] at hcw
        exact (hInv (game_id, g) (dictGet_mem hg)).2 c hc2

/-! ## C3: the registry invariant and the cascade cleanup -/

/-- C3: the inductive registry invariant — every stored entity has a
nonempty watchers dict whose channel entries all hold a nonempty user
list, hence exists in the store iff it has at least one channel with at
least one user — is preserved by `track_game`, `untrack_game` and
`update_game_data` (the query operations `get_tracked_games` and
`get_notification_channels` do not produce a state at all); and removing
the last user of the last channel via `untrack_game` deletes the entity
from the store entirely. -/
theorem registry_invariant_preserved (ok : Bool) (now : String) (s : TrackerState)
    (hInv : RegInv s.tracked_games) :
    (∀ e ∈ s.tracked_games, ∃ c ∈ e.2.watchers, c.2 ≠ [])
      ∧ (∀ game_id game_name channel_id user_id,
          RegInv (track_game ok s game_id game_name channel_id user_id).2.tracked_games)
      ∧ (∀ game_id channel_id user_id,
          RegInv (untrack_game ok s game_id channel_id user_id).2.tracked_games)
      ∧ (∀ game_id price release_date preorder_status last_update,
          RegInv (update_game_data ok now s game_id price release_date preorder_status
              last_update).2.tracked_games)
      ∧ (∀ game_id channel_id user_id g,
          dictNodup s.tracked_games →
          dictGet s.tracked_games game_id = some g →
          g.watchers = [(channel_id, [user_id])] →
          (untrack_game ok s game_id channel_id user_id).1 = true
            ∧ dictGet (untrack_game ok s game_id channel_id user_id).2.tracked_games
                game_id = none) := by
  refine ⟨?_, fun a b c d => RegInv_track ok s a b c d hInv,
          fun a b c => RegInv_untrack ok s a b c hInv,
          fun a b c d e => RegInv_update ok now s a b c d e hInv,
          fun game_id channel_id user_id g hnd hg hws => ?_⟩
  · intro e he
    obtain ⟨h1, h2⟩ := hInv e he
    obtain ⟨c, hc⟩ := List.exists_mem_of_ne_nil e.2.watchers h1
    exact ⟨c, hc, h2 c hc⟩
  · have hw : dictGet g.watchers channel_id = some [user_id] := by
      rw [hws]
      simp [dictGet]
    have hmem : user_id ∈ [user_id] := by simp
    rw [untrack_game_of_mem ok s game_id channel_id user_id g [user_id] hg hw hmem]
    refine ⟨rfl, ?_⟩
    have hrf : removeFirst [user_id] user_id = [] := by simp [removeFirst]
    have hur : untrackRegistry s game_id g
        (untrackWatchers g channel_id (removeFirst [user_id] user_id))
        = dictDel s.tracked_games game_id := by
      have huw : untrackWatchers g channel_id (removeFirst [user_id] user_id) = [] := by
        rw [hrf]
        unfold untrackWatchers
        rw [if_pos rfl, hws]
        simp [dictDel]
      rw [huw]
      unfold untrackRegistry
      rw [if_pos rfl]
    dsimp only
    rw [save_tracked]
    dsimp only
    rw [hur]
    exact dictGet_dictDel_self game_id hnd

/-- Witness for C3: in a concrete single-watcher state the invariant holds,
and untracking the only watcher deletes entity 730 from the store. -/
theorem registry_invariant_preserved_witness :
    (untrack_game true richState 730 1 9).1 = true
      ∧ dictGet (untrack_game true richState 730 1 9).2.tracked_games 730 = none :=
  (registry_invariant_preserved true "t" richState (by unfold RegInv; decide)).2.2.2.2
    730 1 9
    ⟨730, "CS2", [(1, [9])], none, ⟨some "$9.99", some "2025-01-01", false, none⟩⟩
    (by unfold dictNodup; decide) (by decide) rfl

/-! ## C10: frame property of `update_game_data` -/

/-- C10: `update_game_data` touches only the designated entity's snapshot
and `last_check`: every other key of the registry maps to the same
document, and the updated entity keeps its `id`, `name` and `watchers`. -/
theorem update_game_data_frame (ok : Bool) (now : String) (s : TrackerState)
    (game_id : Int) (price release_date : Option String)
    (preorder_status : Option Bool) (last_update : Option String) :
    (∀ k, k ≠ game_id →
        dictGet (update_game_data ok now s game_id price release_date preorder_status
            last_update).2.tracked_games k
          = dictGet s.tracked_games k)
      ∧ (∀ g, dictGet s.tracked_games game_id = some g →
          ∃ g', dictGet (update_game_data ok now s game_id price release_date
                  preorder_status last_update).2.tracked_games game_id = some g'
            ∧ g'.id = g.id ∧ g'.name = g.name ∧ g'.watchers = g.watchers) := by
  cases hg : dictGet s.tracked_games game_id with
  | none =>
    have he : update_game_data ok now s game_id price release_date preorder_status
        last_update = ([], s) := by
      unfold update_game_data
      rw [hg]
    rw [he]
    exact ⟨fun k _ => rfl, fun g h => Option.noConfusion h⟩
  | some g =>
    have ht : (update_game_data ok now s game_id price release_date preorder_status
        last_update).2.tracked_games
        = dictSet s.tracked_games game_id
            (updateResult now g price release_date preorder_status last_update) := by
      unfold update_game_data
      rw [hg]
      exact save_tracked ok _
    refine ⟨fun k hk => ?_, fun g0 hg0 => ?_⟩
    · rw [ht, dictGet_dictSet_ne _ _ _ _ hk]
    · injection hg0 with hg0
      subst hg0
      exact ⟨updateResult now g price release_date preorder_status last_update,
        by rw [ht, dictGet_dictSet_self], rfl, rfl, rfl⟩

/-- Witness for C10: updating entity 730's price leaves key 999 bound as
before (absent) and preserves 730's id, name and watchers. -/
theorem update_game_data_frame_witness :
    dictGet (update_game_data true "t1" richState 730 (some "$19.99") none none
        none).2.tracked_games 999
        = dictGet richState.tracked_games 999
      ∧ ∃ g', dictGet (update_game_data true "t1" richState 730 (some "$19.99") none none
            none).2.tracked_games 730 = some g'
          ∧ g'.id = 730 ∧ g'.name = "CS2" ∧ g'.watchers = [(1, [9])] := by
  have h := update_game_data_frame true "t1" richState 730 (some "$19.99") none none none
  refine ⟨h.1 999 (by decide), ?_⟩
  obtain ⟨g', h1, h2, h3, h4⟩ := h.2
    ⟨730, "CS2", [(1, [9])], none, ⟨some "$9.99", some "2025-01-01", false, none⟩⟩
    (by decide)
  exact ⟨g', h1, h2, h3, h4⟩

/-! ## C5: first-observation suppression for the scalar fields -/

/-- C5: when the stored price is absent, an update carrying a price yields
no event but records the price; once a price is stored, an update carrying
a different price yields exactly one `price` event whose message reports
the old and new values. The same holds for `release_date`. -/
theorem first_observation_suppression (ok : Bool) (now : String) (s : TrackerState)
    (game_id : Int) (g : TrackedGame)
    (hg : dictGet s.tracked_games game_id = some g) :
    (g.current_data.price = none → ∀ p : String,
        (update_game_data ok now s game_id (some p) none none none).1 = []
          ∧ priceOf (update_game_data ok now s game_id (some p) none none none).2 game_id
              = some p)
      ∧ (∀ p0 p : String, g.current_data.price = some p0 → p ≠ p0 →
          (update_game_data ok now s game_id (some p) none none none).1
              = [⟨"price", priceMsg g.name p0 p⟩]
            ∧ priceOf (update_game_data ok now s game_id (some p) none none none).2 game_id
                = some p)
      ∧ (g.current_data.release_date = none → ∀ r : String,
          (update_game_data ok now s game_id none (some r) none none).1 = []
            ∧ releaseDateOf (update_game_data ok now s game_id none (some r) none none).2
                game_id = some r)
      ∧ (∀ r0 r : String, g.current_data.release_date = some r0 → r ≠ r0 →
          (update_game_data ok now s game_id none (some r) none none).1
              = [⟨"release_date", releaseMsg g.name r0 r⟩]
            ∧ releaseDateOf (update_game_data ok now s game_id none (some r) none none).2
                game_id = some r) := by
  refine ⟨fun h0 p => ?_, fun p0 p h0 hne => ?_, fun h0 r => ?_, fun r0 r h0 hne => ?_⟩
  · unfold update_game_data
    rw [hg]
    simp [updateEvents, updateResult, stepPrice, stepRelease, stepPreorder,
          priceOf, save_tracked, dictGet_dictSet_self, h0]
  · unfold update_game_data
    rw [hg]
    simp [updateEvents, updateResult, stepPrice, stepRelease, stepPreorder,
          priceOf, save_tracked, dictGet_dictSet_self, h0, hne]
  · unfold update_game_data
    rw [hg]
    simp [updateEvents, updateResult, stepPrice, stepRelease, stepPreorder,
          releaseDateOf, save_tracked, dictGet_dictSet_self, h0]
  · unfold update_game_data
    rw [hg]
    simp [updateEvents, updateResult, stepPrice, stepRelease, stepPreorder,
          releaseDateOf, save_tracked, dictGet_dictSet_self, h0, hne]

/-- Witness for C5 replaying the spec scenario: track 730 "CS2", first
price observation "$9.99" is silent but stored, second observation
"$19.99" fires one `price` event reporting both values. -/
theorem first_observation_suppression_witness :
    (update_game_data true "t1" trackedCS2 730 (some "$9.99") none none none).1 = []
      ∧ priceOf (update_game_data true "t1" trackedCS2 730
          (some "$9.99") none none none).2 730 = some "$9.99"
      ∧ (update_game_data true "t2"
            (update_game_data true "t1" trackedCS2 730 (some "$9.99") none none none).2 730
            (some "$19.99") none none none).1
          = [⟨"price", priceMsg "CS2" "$9.99" "$19.99"⟩]
      ∧ priceOf (update_game_data true "t2"
            (update_game_data true "t1" trackedCS2 730 (some "$9.99") none none none).2 730
            (some "$19.99") none none none).2 730 = some "$19.99" := by
  have h1 := (first_observation_suppression true "t1" trackedCS2 730
      ⟨730, "CS2", [(1, [9])], none, ⟨none, none, false, none⟩⟩ (by decide)).1 rfl "$9.99"
  have h2 := (first_observation_suppression true "t2"
      (update_game_data true "t1" trackedCS2 730 (some "$9.99") none none none).2 730
      ⟨730, "CS2", [(1, [9])], some "t1", ⟨some "$9.99", none, false, none⟩⟩
      (by decide)).2.1 "$9.99" "$19.99" rfl (by decide)
  exact ⟨h1.1, h1.2, h2.1, h2.2⟩

/-! ## C6: the preorder flag fires from its implicit default -/

/-- C6: for an entity whose stored preorder flag is the default `false`, an
update observing `preorder_status = true` yields exactly one `preorder`
event and overwrites the stored boolean — unlike price and release_date,
the transition from the implicit default is not suppressed. -/
theorem preorder_first_transition_fires (ok : Bool) (now : String) (s : TrackerState)
    (game_id : Int) (g : TrackedGame)
    (hg : dictGet s.tracked_games game_id = some g)
    (hb : g.current_data.preorder_status = false) :
    (update_game_data ok now s game_id none none (some true) none).1
        = [⟨"preorder", preorderMsg g.name true⟩]
      ∧ preorderOf (update_game_data ok now s game_id none none (some true) none).2 game_id
          = some true := by
  unfold update_game_data
  rw [hg]
  simp [updateEvents, updateResult, stepPrice, stepRelease, stepPreorder,
        preorderOf, save_tracked, dictGet_dictSet_self, hb]

/-- Witness for C6: the freshly tracked entity 730 (preorder defaults to
`false`) fires exactly one preorder event on the first `true` observation. -/
theorem preorder_first_transition_fires_witness :
    (update_game_data true "t1" trackedCS2 730 none none (some true) none).1
        = [⟨"preorder", preorderMsg "CS2" true⟩]
      ∧ preorderOf (update_game_data true "t1" trackedCS2 730
          none none (some true) none).2 730 = some true :=
  preorder_first_transition_fires true "t1" trackedCS2 730
    ⟨730, "CS2", [(1, [9])], none, ⟨none, none, false, none⟩⟩ (by decide) rfl

/-! ## C7: deterministic event ordering -/

/-- C7: when price, release_date and preorder_status all change in one
update (with prior stored values present where suppression applies), the
returned events are exactly the price event, the release_date event and
the preorder event, in that fixed order. -/
theorem update_event_ordering (ok : Bool) (now : String) (s : TrackerState)
    (game_id : Int) (g : TrackedGame) (p0 r0 p r : String) (b : Bool)
    (last_update : Option String)
    (hg : dictGet s.tracked_games game_id = some g)
    (hp0 : g.current_data.price = some p0)
    (hr0 : g.current_data.release_date = some r0)
    (hp : p ≠ p0) (hr : r ≠ r0) (hb : b ≠ g.current_data.preorder_status) :
    (update_game_data ok now s game_id (some p) (some r) (some b) last_update).1
      = [⟨"price", priceMsg g.name p0 p⟩,
         ⟨"release_date", releaseMsg g.name r0 r⟩,
         ⟨"preorder", preorderMsg g.name b⟩] := by
  unfold update_game_data
  rw [hg]
  simp [updateEvents, stepPrice, stepRelease, stepPreorder, hp0, hr0, hp, hr, hb]

/-- Witness for C7: on a state holding a price and a release date, one
update changing all three fields yields the three events in source order. -/
theorem update_event_ordering_witness :
    (update_game_data true "t1" richState 730
        (some "$19.99") (some "2026-03-01") (some true) none).1
      = [⟨"price", priceMsg "CS2" "$9.99" "$19.99"⟩,
         ⟨"release_date", releaseMsg "CS2" "2025-01-01" "2026-03-01"⟩,
         ⟨"preorder", preorderMsg "CS2" true⟩] :=
  update_event_ordering true "t1" richState 730
    ⟨730, "CS2", [(1, [9])], none,
      ⟨some "$9.99", some "2025-01-01", false, none⟩⟩
    "$9.99" "2025-01-01" "$19.99" "2026-03-01" true none
    (by decide) rfl rfl (by decide) (by decide) (by decide)

end SteamTracker
